import Mathlib

/-!
Verification of the Gemini Guardian backend core: the AI-response
normalization pipeline (`gemini_service.py`), the session/instruction state
machine (`emergency_service.py`, `models/emergency.py`, `session_service.py`)
and the controller-level step-advance protocol (`emergency_controller.py`).

Python string and JSON machinery is embedded executably: strings as Lean
`String`, JSON values as an inductive `Json`, `json.loads` as a fuel-based
recursive-descent reader, timestamps as abstract `Nat` instants passed in
explicitly, and Python exceptions as `Except String`.
-/

/-! ## Python string helpers -/

/-- The opening curly brace character. -/
def lbrace : Char := Char.ofNat 123

/-- The closing curly brace character. -/
def rbrace : Char := Char.ofNat 125

/-- Python regex `\s` / `str.strip` whitespace: space, tab, LF, CR, VT, FF. -/
def pySpace (c : Char) : Bool :=
  c = ' ' || c = '\t' || c = '\n' || c = '\r' || c = Char.ofNat 11 || c = Char.ofNat 12

/-- Strip leading and trailing Python whitespace from a character list. -/
def pyStripChars (cs : List Char) : List Char :=
  ((cs.dropWhile pySpace).reverse.dropWhile pySpace).reverse

/-- Python `str.strip()`. -/
def pyStrip (s : String) : String := ⟨pyStripChars s.data⟩

/-- Python `str.lower()` (ASCII behaviour, which is all the code relies on). -/
def pyLower (s : String) : String := ⟨s.data.map Char.toLower⟩

/-- Does `cs` start with `needle`? -/
def charsStart (needle : List Char) (cs : List Char) : Bool :=
  match needle, cs with
  | [], _ => true
  | _ :: _, [] => false
  | a :: as, b :: bs => a = b && charsStart as bs

/-- Does `cs` contain `needle` as a contiguous run? -/
def charsContain (needle : List Char) (cs : List Char) : Bool :=
  match cs with
  | [] => charsStart needle []
  | _ :: t => charsStart needle cs || charsContain needle t

/-- Python `needle in hay` on strings. -/
def strContains (hay needle : String) : Bool := charsContain needle.data hay.data

/-- The characters after the first occurrence of `needle`, if it occurs. -/
def afterFirst (needle : List Char) : List Char → Option (List Char)
  | [] => if charsStart needle [] then some [] else none
  | c :: t =>
    if charsStart needle (c :: t) then some ((c :: t).drop needle.length)
    else afterFirst needle t

/-- The characters before the first occurrence of `needle`, if it occurs. -/
def beforeFirst (needle : List Char) : List Char → Option (List Char)
  | [] => if charsStart needle [] then some [] else none
  | c :: t =>
    if charsStart needle (c :: t) then some []
    else (beforeFirst needle t).map (c :: ·)

/-- The characters strictly before the last occurrence of `c`, if it occurs. -/
def beforeLast (c : Char) (cs : List Char) : Option (List Char) :=
  match cs.reverse.dropWhile (fun x => x != c) with
  | [] => none
  | _ :: t => some t.reverse

/-! ## JSON values and `json.loads` -/

/-- A parsed JSON value.  Numbers are rationals: every numeric literal the
Python `json` module accepts (integer, decimal fraction, exponent) denotes a
rational, and the code only defaults, range-checks and compares them. -/
inductive Json where
  | null
  | bool (b : Bool)
  | num (q : ℚ)
  | str (s : String)
  | arr (elems : List Json)
  | obj (members : List (String × Json))
deriving Repr

/-- JSON interelement whitespace accepted by `json.loads`. -/
def jsonWs (c : Char) : Bool := c = ' ' || c = '\t' || c = '\n' || c = '\r'

/-- Skip JSON whitespace. -/
def skipWs (cs : List Char) : List Char := cs.dropWhile jsonWs

/-- Hexadecimal digit value. -/
def hexVal (c : Char) : Option Nat :=
  if '0' ≤ c ∧ c ≤ '9' then some (c.toNat - 48)
  else if 'a' ≤ c ∧ c ≤ 'f' then some (c.toNat - 87)
  else if 'A' ≤ c ∧ c ≤ 'F' then some (c.toNat - 55)
  else none

/-- Read a JSON string body (after the opening quote), handling escapes. -/
def readStringBody (fuel : Nat) (acc : List Char) (cs : List Char) :
    Option (String × List Char) :=
  match fuel with
  | 0 => none
  | fuel + 1 =>
    match cs with
    | [] => none
    | c :: t =>
      if c = '"' then some (⟨acc.reverse⟩, t)
      else if c = '\\' then
        match t with
        | [] => none
        | e :: t2 =>
          if e = '"' then readStringBody fuel ('"' :: acc) t2
          else if e = '\\' then readStringBody fuel ('\\' :: acc) t2
          else if e = '/' then readStringBody fuel ('/' :: acc) t2
          else if e = 'b' then readStringBody fuel (Char.ofNat 8 :: acc) t2
          else if e = 'f' then readStringBody fuel (Char.ofNat 12 :: acc) t2
          else if e = 'n' then readStringBody fuel ('\n' :: acc) t2
          else if e = 'r' then readStringBody fuel ('\r' :: acc) t2
          else if e = 't' then readStringBody fuel ('\t' :: acc) t2
          else if e = 'u' then
            match t2 with
            | h1 :: h2 :: h3 :: h4 :: t3 =>
              match hexVal h1, hexVal h2, hexVal h3, hexVal h4 with
              | some a, some b, some c3, some d =>
                readStringBody fuel
                  (Char.ofNat (((a * 16 + b) * 16 + c3) * 16 + d) :: acc) t3
              | _, _, _, _ => none
            | _ => none
          else none
      else if c.toNat < 32 then none
      else readStringBody fuel (c :: acc) t

/-- Leading decimal digits of a character list, as digit values. -/
def takeDigits : List Char → (List Nat × List Char)
  | [] => ([], [])
  | c :: t =>
    if c.isDigit then
      let (ds, r) := takeDigits t
      ((c.toNat - 48) :: ds, r)
    else ([], c :: t)

/-- Digit list to a natural number. -/
def digitsToNat (ds : List Nat) : Nat := ds.foldl (fun a d => a * 10 + d) 0

/-- Read a JSON number literal (sign, integer part without leading zeros,
optional fraction, optional exponent), as `json.loads` accepts. -/
def readNumber (cs : List Char) : Option (ℚ × List Char) :=
  let (neg, cs1) :=
    match cs with
    | '-' :: t => (true, t)
    | _ => (false, cs)
  match takeDigits cs1 with
  | ([], _) => none
  | (ds, cs2) =>
    if 1 < ds.length ∧ ds.head? = some 0 then none
    else
      let ipart : ℚ := (digitsToNat ds : ℚ)
      let step1 : Option (ℚ × List Char) :=
        match cs2 with
        | '.' :: t =>
          match takeDigits t with
          | ([], _) => none
          | (fs, r) => some (ipart + (digitsToNat fs : ℚ) / ((10 : ℚ) ^ fs.length), r)
        | _ => some (ipart, cs2)
      match step1 with
      | none => none
      | some (base, cs3) =>
        let step2 : Option (ℚ × List Char) :=
          match cs3 with
          | e :: t =>
            if e = 'e' ∨ e = 'E' then
              let (esign, t1) :=
                match t with
                | '+' :: r => (false, r)
                | '-' :: r => (true, r)
                | _ => (false, t)
              match takeDigits t1 with
              | ([], _) => none
              | (es, r) =>
                let ex := digitsToNat es
                some ((if esign then base / ((10 : ℚ) ^ ex) else base * ((10 : ℚ) ^ ex)), r)
            else some (base, cs3)
          | [] => some (base, cs3)
        match step2 with
        | none => none
        | some (v, cs4) => some ((if neg then -v else v), cs4)

mutual

/-- Read one JSON value. -/
def readValue (fuel : Nat) (cs : List Char) : Option (Json × List Char) :=
  match fuel with
  | 0 => none
  | fuel + 1 =>
    match skipWs cs with
    | [] => none
    | c :: t =>
      if c = '"' then
        (readStringBody (t.length + 1) [] t).map (fun p => (Json.str p.1, p.2))
      else if c = lbrace then readMembers fuel t
      else if c = '[' then readElems fuel t
      else if charsStart ("true".data) (c :: t) then some (Json.bool true, (c :: t).drop 4)
      else if charsStart ("false".data) (c :: t) then some (Json.bool false, (c :: t).drop 5)
      else if charsStart ("null".data) (c :: t) then some (Json.null, (c :: t).drop 4)
      else (readNumber (c :: t)).map (fun p => (Json.num p.1, p.2))

/-- Read array elements after the opening bracket. -/
def readElems (fuel : Nat) (cs : List Char) : Option (Json × List Char) :=
  match fuel with
  | 0 => none
  | fuel + 1 =>
    match skipWs cs with
    | [] => none
    | c :: t =>
      if c = ']' then some (Json.arr [], t)
      else
        match readElemsLoop fuel (c :: t) with
        | some (xs, r) => some (Json.arr xs, r)
        | none => none

/-- Read one or more comma-separated array elements and the closing bracket. -/
def readElemsLoop (fuel : Nat) (cs : List Char) : Option (List Json × List Char) :=
  match fuel with
  | 0 => none
  | fuel + 1 =>
    match readValue fuel cs with
    | none => none
    | some (v, r1) =>
      match skipWs r1 with
      | [] => none
      | c :: t =>
        if c = ',' then
          match readElemsLoop fuel t with
          | some (vs, r2) => some (v :: vs, r2)
          | none => none
        else if c = ']' then some ([v], t)
        else none

/-- Read object members after the opening brace. -/
def readMembers (fuel : Nat) (cs : List Char) : Option (Json × List Char) :=
  match fuel with
  | 0 => none
  | fuel + 1 =>
    match skipWs cs with
    | [] => none
    | c :: t =>
      if c = rbrace then some (Json.obj [], t)
      else
        match readMembersLoop fuel (c :: t) with
        | some (kvs, r) => some (Json.obj kvs, r)
        | none => none

/-- Read one or more comma-separated object members and the closing brace. -/
def readMembersLoop (fuel : Nat) (cs : List Char) :
    Option (List (String × Json) × List Char) :=
  match fuel with
  | 0 => none
  | fuel + 1 =>
    match skipWs cs with
    | [] => none
    | c :: t =>
      if c = '"' then
        match readStringBody (t.length + 1) [] t with
        | none => none
        | some (k, r1) =>
          match skipWs r1 with
          | ':' :: r2 =>
            match readValue fuel r2 with
            | none => none
            | some (v, r3) =>
              match skipWs r3 with
              | [] => none
              | c2 :: t2 =>
                if c2 = ',' then
                  match readMembersLoop fuel t2 with
                  | some (kvs, r4) => some ((k, v) :: kvs, r4)
                  | none => none
                else if c2 = rbrace then some ([(k, v)], t2)
                else none
          | _ => none
      else none

end

/-- Python `json.loads`: read one value, demand nothing but whitespace after. -/
def pyJsonLoads (s : String) : Option Json :=
  match readValue (s.data.length * 4 + 16) s.data with
  | some (v, rest) => if skipWs rest = [] then some v else none
  | none => none

/-! ## Response normalizer (`GeminiService._parse_analysis_response`,
`GeminiService._parse_instructions_response`) -/

/-- The interior of the first complete fenced block matched by the regex
search for three backticks, `json`, lazily anything, three backticks (with
surrounding whitespace absorbed): the text between the first occurrence of
the opening marker and the next occurrence of three backticks, stripped.
If the opening marker has no closing backticks anywhere after it, no later
opening marker can complete either (it would itself supply backticks), so
the search fails exactly when this function returns `none`. -/
def fencedBlock (cs : List Char) : Option (List Char) :=
  match afterFirst ("```json".data) cs with
  | none => none
  | some rest =>
    match beforeFirst ("```".data) rest with
    | none => none
    | some inner => some (pyStripChars inner)

/-- The span matched by the greedy dot-all regex search for `op`, anything,
`cl`: from the first occurrence of `op` to the last occurrence of `cl`,
provided that last occurrence comes after the first `op`. -/
def rawSpan (op cl : Char) (cs : List Char) : Option (List Char) :=
  match afterFirst [op] cs with
  | none => none
  | some rest =>
    match beforeLast cl rest with
    | none => none
    | some body => some (op :: (body ++ [cl]))

/-- The `try`-body of `_parse_analysis_response`: extract a fenced block or a
raw object span, then `json.loads` it; a decode failure is the only raised
error, and no extractable JSON returns the empty dict directly. -/
def parseAnalysisResponseE (text : String) : Except String Json :=
  match fencedBlock text.data with
  | some inner =>
    match pyJsonLoads ⟨inner⟩ with
    | some j => Except.ok j
    | none => Except.error ("JSONDecodeError")
  | none =>
    match rawSpan lbrace rbrace text.data with
    | some span =>
      match pyJsonLoads ⟨span⟩ with
      | some j => Except.ok j
      | none => Except.error ("JSONDecodeError")
    | none => Except.ok (Json.obj [])

/-- Model of `_parse_analysis_response`: the decode error is caught and becomes the
empty dict, so the function is total. -/
def parseAnalysisResponse (text : String) : Json :=
  match parseAnalysisResponseE text with
  | Except.ok j => j
  | Except.error _ => Json.obj []

/-- The `try`-body of `_parse_instructions_response`: fenced block first,
else a raw array span; a parsed non-list yields the empty list. -/
def parseInstructionsResponseE (text : String) : Except String (List Json) :=
  match fencedBlock text.data with
  | some inner =>
    match pyJsonLoads ⟨inner⟩ with
    | some (Json.arr xs) => Except.ok xs
    | some _ => Except.ok []
    | none => Except.error ("JSONDecodeError")
  | none =>
    match rawSpan '[' ']' text.data with
    | some span =>
      match pyJsonLoads ⟨span⟩ with
      | some (Json.arr xs) => Except.ok xs
      | some _ => Except.ok []
      | none => Except.error ("JSONDecodeError")
    | none => Except.ok []

/-- Model of `_parse_instructions_response`: decode errors are caught as `[]`. -/
def parseInstructionsResponse (text : String) : List Json :=
  match parseInstructionsResponseE text with
  | Except.ok xs => xs
  | Except.error _ => []

/-! ## Domain enumerations (`models/emergency.py`) -/

/-- Model of `EmergencyType`: the closed classification enumeration. -/
inductive EmergencyType where
  | cardiac_arrest | heart_attack
  | choking | drowning | asthma_attack
  | severe_bleeding | fracture | burn | head_injury
  | stroke | seizure | diabetic_emergency | allergic_reaction | poisoning
  | unconscious | shock | unknown
deriving DecidableEq, Repr

/-- Model of `EmergencyType(value)` on a string: the enum constructor, raising
`ValueError` on an unrecognized value. -/
def emergencyTypeOfString (s : String) : Except String EmergencyType :=
  if s = "cardiac_arrest" then Except.ok EmergencyType.cardiac_arrest
  else if s = "heart_attack" then Except.ok EmergencyType.heart_attack
  else if s = "choking" then Except.ok EmergencyType.choking
  else if s = "drowning" then Except.ok EmergencyType.drowning
  else if s = "asthma_attack" then Except.ok EmergencyType.asthma_attack
  else if s = "severe_bleeding" then Except.ok EmergencyType.severe_bleeding
  else if s = "fracture" then Except.ok EmergencyType.fracture
  else if s = "burn" then Except.ok EmergencyType.burn
  else if s = "head_injury" then Except.ok EmergencyType.head_injury
  else if s = "stroke" then Except.ok EmergencyType.stroke
  else if s = "seizure" then Except.ok EmergencyType.seizure
  else if s = "diabetic_emergency" then Except.ok EmergencyType.diabetic_emergency
  else if s = "allergic_reaction" then Except.ok EmergencyType.allergic_reaction
  else if s = "poisoning" then Except.ok EmergencyType.poisoning
  else if s = "unconscious" then Except.ok EmergencyType.unconscious
  else if s = "shock" then Except.ok EmergencyType.shock
  else if s = "unknown" then Except.ok EmergencyType.unknown
  else Except.error ("ValueError: emergency_type")

/-- Model of `EmergencyStatus`: the session lifecycle enumeration. -/
inductive EmergencyStatus where
  | pending | analyzing | active | monitoring | resolved | escalated | cancelled
deriving DecidableEq, Repr

/-- Model of `SeverityLevel(value)`: the int enum admits exactly the values 1 to 5
(member lookup is by numeric equality, so `3.0` and `True` coerce), raising
`ValueError` otherwise.  `SeverityLevel.HIGH` is 3 and `CRITICAL` is 4. -/
def severityLevelOfJson (j : Json) : Except String Nat :=
  match j with
  | Json.num q =>
    if q = 1 ∨ q = 2 ∨ q = 3 ∨ q = 4 ∨ q = 5 then Except.ok q.num.toNat
    else Except.error ("ValueError: severity")
  | Json.bool true => Except.ok 1
  | _ => Except.error ("ValueError: severity")

/-! ## JSON-to-Python field coercions -/

/-- Python `float(x)` over the JSON values that can appear: numbers pass
through, booleans are the ints 1 and 0, numeric strings parse (modelled for
the JSON numeric-literal forms), anything else raises. -/
def pyFloatOfJson (j : Json) : Except String ℚ :=
  match j with
  | Json.num q => Except.ok q
  | Json.bool b => Except.ok (if b then 1 else 0)
  | Json.str s =>
    match readNumber (pyStripChars s.data) with
    | some (q, []) => Except.ok q
    | _ => Except.error ("ValueError: float")
  | _ => Except.error ("ValueError: float")

/-- Pydantic `bool` field coercion: booleans, the ints 0 and 1, and the
conventional true/false strings; anything else is a validation error. -/
def pyBoolOfJson (j : Json) : Except String Bool :=
  match j with
  | Json.bool b => Except.ok b
  | Json.num q =>
    if q = 0 then Except.ok false
    else if q = 1 then Except.ok true
    else Except.error ("ValidationError: bool")
  | Json.str s =>
    let l := pyLower s
    if l = "true" ∨ l = "t" ∨ l = "yes" ∨ l = "y" ∨ l = "on" ∨ l = "1" then Except.ok true
    else if l = "false" ∨ l = "f" ∨ l = "no" ∨ l = "n" ∨ l = "off" ∨ l = "0" then
      Except.ok false
    else Except.error ("ValidationError: bool")
  | _ => Except.error ("ValidationError: bool")

/-- Pydantic `str` field: only strings are accepted (v2 does not coerce). -/
def pyStrOfJson (j : Json) : Except String String :=
  match j with
  | Json.str s => Except.ok s
  | _ => Except.error ("ValidationError: str")

/-- Optional integer sign and digits, the integer strings `int()` accepts. -/
def readIntString (s : String) : Option Int :=
  let cs := pyStripChars s.data
  let (neg, cs1) :=
    match cs with
    | '-' :: t => (true, t)
    | '+' :: t => (false, t)
    | _ => (false, cs)
  match takeDigits cs1 with
  | ([], _) => none
  | (ds, []) => some (if neg then -(digitsToNat ds : Int) else (digitsToNat ds : Int))
  | (_, _ :: _) => none

/-- Pydantic `int` field coercion: integral numbers and integer strings pass,
booleans and non-integral floats are validation errors. -/
def pyIntOfJson (j : Json) : Except String Int :=
  match j with
  | Json.num q => if q.den = 1 then Except.ok q.num else Except.error ("ValidationError: int")
  | Json.str s =>
    match readIntString s with
    | some n => Except.ok n
    | none => Except.error ("ValidationError: int")
  | _ => Except.error ("ValidationError: int")

/-- Pydantic `Optional[str]` field: absent or null is `none`. -/
def pyOptStrOfJson (j : Option Json) : Except String (Option String) :=
  match j with
  | none => Except.ok none
  | some Json.null => Except.ok none
  | some (Json.str s) => Except.ok (some s)
  | some _ => Except.error ("ValidationError: optional str")

/-! ## Pydantic models (`models/emergency.py`) -/

/-- Model of `EmergencyAnalysis`, the validated value object.  `severity` carries the
numeric value of the `SeverityLevel` member (1 to 5). -/
structure EmergencyAnalysis where
  emergency_type : EmergencyType
  severity : Nat
  confidence_score : ℚ
  observations : List String
  recommended_action : String
  call_emergency_services : Bool
  additional_context : Option String
deriving DecidableEq, Repr

/-- The `observations` field validator: strip every entry and drop entries
that are empty or all-whitespace. -/
def cleanObservations (v : List String) : List String :=
  (v.filter (fun s => !s.isEmpty && !(pyStrip s).isEmpty)).map pyStrip

/-- Model of `EmergencyAnalysis(...)`: pydantic field validation (confidence in the
unit interval, recommended action 1 to 500 characters, additional context at
most 1000 characters) followed by the observations cleaner. -/
def mkEmergencyAnalysis (et : EmergencyType) (sev : Nat) (conf : ℚ)
    (obs : List String) (ra : String) (ces : Bool) (ac : Option String) :
    Except String EmergencyAnalysis :=
  if conf < 0 ∨ 1 < conf then Except.error ("ValidationError: confidence_score")
  else if ra.length < 1 ∨ 500 < ra.length then
    Except.error ("ValidationError: recommended_action")
  else if (match ac with | some s => decide (1000 < s.length) | none => false) then
    Except.error ("ValidationError: additional_context")
  else Except.ok ⟨et, sev, conf, cleanObservations obs, ra, ces, ac⟩

/-- Model of `FirstAidInstruction`, the validated step record. -/
structure FirstAidInstruction where
  step_number : Int
  instruction_text : String
  voice_text : String
  duration_seconds : Option Int
  requires_confirmation : Bool
  warning : Option String
  visual_cue : Option String
deriving DecidableEq, Repr

/-- Model of `FirstAidInstruction(...)`: pydantic field validation (step at least 1,
texts 1 to 500 characters, nonnegative duration, annotations at most 200). -/
def mkFirstAidInstruction (sn : Int) (it vt : String) (ds : Option Int)
    (rc : Bool) (w vc : Option String) : Except String FirstAidInstruction :=
  if sn < 1 then Except.error ("ValidationError: step_number")
  else if it.length < 1 ∨ 500 < it.length then
    Except.error ("ValidationError: instruction_text")
  else if vt.length < 1 ∨ 500 < vt.length then
    Except.error ("ValidationError: voice_text")
  else if (match ds with | some d => decide (d < 0) | none => false) then
    Except.error ("ValidationError: duration_seconds")
  else if (match w with | some s => decide (200 < s.length) | none => false) then
    Except.error ("ValidationError: warning")
  else if (match vc with | some s => decide (200 < s.length) | none => false) then
    Except.error ("ValidationError: visual_cue")
  else Except.ok ⟨sn, it, vt, ds, rc, w, vc⟩

/-! ## Classifier adapter (`gemini_service.py`) -/

/-- Python `dict` lookup on parsed JSON members (duplicate keys: last one
wins, as in `json.loads`). -/
def jsonLookup (kvs : List (String × Json)) (k : String) : Option Json :=
  (kvs.reverse.find? (fun p => p.1 == k)).map (fun p => p.2)

/-- Python `dict.get(key, default)`. -/
def jsonGetD (kvs : List (String × Json)) (k : String) (d : Json) : Json :=
  (jsonLookup kvs k).getD d

/-- The rational one half, the Python float default `0.5`, given in lowest
terms directly so that kernel evaluation never runs rational normalization. -/
def oneHalf : Rat := ⟨1, 2, by norm_num, Nat.coprime_one_left 2⟩

/-- The field-mapping stage of `analyze_emergency_frame` (source lines 252
to 260): each parsed field, or its default, is pushed through the enum and
pydantic coercions; any coercion or validation failure raises into the
surrounding `except`.  `.get` on a non-dict raises `AttributeError`. -/
def mapAnalysisFields (data : Json) : Except String EmergencyAnalysis := do
  match data with
  | Json.obj kvs =>
    let et ←
      match jsonGetD kvs "emergency_type" (Json.str ("unknown")) with
      | Json.str s => emergencyTypeOfString s
      | _ => Except.error ("ValueError: emergency_type")
    let sev ← severityLevelOfJson (jsonGetD kvs "severity" (Json.num 3))
    let conf ← pyFloatOfJson (jsonGetD kvs "confidence_score" (Json.num oneHalf))
    let obs ←
      match jsonGetD kvs "observations" (Json.arr []) with
      | Json.arr xs =>
        xs.mapM (fun x =>
          match x with
          | Json.str s => Except.ok s
          | _ => Except.error ("ValidationError: observations"))
      | _ => Except.error ("ValidationError: observations")
    let ra ← pyStrOfJson (jsonGetD kvs "recommended_action" (Json.str ("Assess the situation")))
    let ces ← pyBoolOfJson (jsonGetD kvs "call_emergency_services" (Json.bool true))
    let ac ← pyOptStrOfJson (jsonLookup kvs "additional_context")
    mkEmergencyAnalysis et sev conf obs ra ces ac
  | _ => Except.error ("AttributeError")

/-- The safe default analysis built in the `except` branch of
`analyze_emergency_frame`; `e` is `str(e)` of the caught exception.  The
fallback itself goes through pydantic validation. -/
def fallbackAnalysis (e : String) : Except String EmergencyAnalysis :=
  mkEmergencyAnalysis EmergencyType.unknown 3 0
    ["Analysis failed - please describe the situation"]
    ("Call 911 immediately and describe the emergency") true
    (some ("Analysis error: " ++ e))

/-- Model of `GeminiService.analyze_emergency_frame`, with the frame decode, prompt
build and external generation call abstracted into `gen`: either the
response text or the raised exception.  The body parses and maps the text;
any raise lands in the `except` branch, which returns the fallback. -/
def analyzeEmergencyFrame (gen : Except String String) : Except String EmergencyAnalysis :=
  match (do
      let text ← gen
      mapAnalysisFields (parseAnalysisResponse text) :
      Except String EmergencyAnalysis) with
  | Except.ok a => Except.ok a
  | Except.error e => fallbackAnalysis e

/-- One instruction object from the generation loop (`enumerate` index `i`,
1-based): each field from the parsed dict or its default, `voice_text`
falling back to `instruction_text`, then pydantic validation. -/
def instructionOfJson (i : Nat) (d : Json) : Except String FirstAidInstruction := do
  match d with
  | Json.obj kvs =>
    let sn ← pyIntOfJson (jsonGetD kvs "step_number" (Json.num (i : ℚ)))
    let defText := "Step " ++ toString i
    let it ← pyStrOfJson (jsonGetD kvs "instruction_text" (Json.str defText))
    let vt ← pyStrOfJson
      (jsonGetD kvs "voice_text" (jsonGetD kvs "instruction_text" (Json.str defText)))
    let ds ←
      match jsonLookup kvs "duration_seconds" with
      | none => Except.ok none
      | some Json.null => Except.ok none
      | some j => (pyIntOfJson j).map some
    let rc ← pyBoolOfJson (jsonGetD kvs "requires_confirmation" (Json.bool false))
    let w ← pyOptStrOfJson (jsonLookup kvs "warning")
    let vc ← pyOptStrOfJson (jsonLookup kvs "visual_cue")
    mkFirstAidInstruction sn it vt ds rc w vc
  | _ => Except.error ("AttributeError")

/-- The generic two-step default instruction set. -/
def genericDefaultInstructions : List FirstAidInstruction :=
  [⟨1, "Call 911 immediately",
    "Call 911 immediately and describe the emergency.", none, true, none, none⟩,
   ⟨2, "Keep the person calm and still",
    "Keep the person calm, still, and comfortable while waiting for help.",
    none, true, none, none⟩]

/-- Model of `GeminiService._get_default_instructions`: curated defaults for cardiac
arrest and choking, the generic two-step set for every other type. -/
def defaultInstructionsFor (et : EmergencyType) : List FirstAidInstruction :=
  match et with
  | EmergencyType.cardiac_arrest =>
    [⟨1, "Call 911 immediately",
      "First, call 911 or have someone else call. Time is critical.",
      none, true, none, none⟩,
     ⟨2, "Check for responsiveness",
      "Tap the person\x27s shoulders and shout \x27Are you okay?\x27",
      some 5, false, none, none⟩,
     ⟨3, "Begin chest compressions",
      "Place the heel of your hand on the center of the chest. Push hard and fast, about 2 inches deep, 100 to 120 times per minute.",
      none, true, some ("The person should be on a firm, flat surface"), none⟩]
  | EmergencyType.choking =>
    [⟨1, "Ask if they can speak",
      "Ask the person \x27Are you choking?\x27 If they cannot speak, cough, or breathe, they need help.",
      some 5, false, none, none⟩,
     ⟨2, "Perform abdominal thrusts",
      "Stand behind them, make a fist above their navel, and thrust inward and upward.",
      none, true, some ("Be careful not to squeeze the ribs"), none⟩]
  | _ => genericDefaultInstructions

/-- Model of `enumerate(xs, i)`. -/
def enumFrom (i : Nat) : List Json → List (Nat × Json)
  | [] => []
  | d :: rest => (i, d) :: enumFrom (i + 1) rest

/-- Model of `GeminiService.generate_first_aid_instructions`, the external call again
abstracted into `gen`.  The `try`-body parses the response (decode failures
already caught as `[]` inside the response reader) and builds each
instruction; only a raise — from the call itself or from instruction
validation — reaches the `except` branch that substitutes the defaults. -/
def generateFirstAidInstructions (gen : Except String String) (et : EmergencyType) :
    List FirstAidInstruction :=
  match (do
      let text ← gen
      (enumFrom 1 (parseInstructionsResponse text)).mapM
        (fun p => instructionOfJson p.1 p.2) :
      Except String (List FirstAidInstruction)) with
  | Except.ok l => l
  | Except.error _ => defaultInstructionsFor et

/-! ## Session model and state machine (`models/emergency.py`,
`emergency_service.py`, `session_service.py`) -/

/-- Model of `EmergencySession`, timestamps as abstract instants. -/
structure EmergencySession where
  status : EmergencyStatus
  started_at : Nat
  updated_at : Nat
  ended_at : Option Nat
  analysis : Option EmergencyAnalysis
  instructions : List FirstAidInstruction
  current_step : Nat
  user_notes : Option String
  location_data : Option String
deriving DecidableEq, Repr

/-- Model of `SessionService.create_session`: a fresh pending session with the
request's notes and location and all progress fields at their defaults. -/
def createSession (notes loc : Option String) (now : Nat) : EmergencySession :=
  ⟨EmergencyStatus.pending, now, now, none, none, [], 0, notes, loc⟩

/-- Model of `EmergencyService.get_current_instruction`: a pure read, valid only when
the 1-based step points into the instruction list. -/
def getCurrentInstruction (s : EmergencySession) : Option FirstAidInstruction :=
  if s.instructions.isEmpty then none
  else if s.current_step < 1 ∨ s.instructions.length < s.current_step then none
  else s.instructions[s.current_step - 1]?

/-- Model of `EmergencyService.advance_instruction`: no-op on an empty list; at or
past the last step, resolve and stamp `ended_at`; otherwise increment the
step and return the newly current instruction. -/
def advanceInstruction (s : EmergencySession) (feedback : Option String) (now : Nat) :
    (Bool × Option FirstAidInstruction) × EmergencySession :=
  let _ := feedback
  if s.instructions.isEmpty then ((false, none), s)
  else if s.instructions.length ≤ s.current_step then
    ((false, none),
     { s with status := EmergencyStatus.resolved, ended_at := some now, updated_at := now })
  else
    let s1 := { s with current_step := s.current_step + 1, updated_at := now }
    ((true, getCurrentInstruction s1), s1)

/-- The end-session request body (`EndSessionRequest`). -/
structure EndSessionRequest where
  reason : String
  notes : Option String
  emergency_services_called : Bool
deriving DecidableEq, Repr

/-- Model of `SessionService.end_session` after the store lookup: reject when the
status is RESOLVED or CANCELLED (the code checks only these two); otherwise
pick the end status from the request, stamp `ended_at` and `updated_at`, and
append any non-empty resolution notes. -/
def endSession (s : EmergencySession) (req : EndSessionRequest) (now : Nat) :
    Except String EmergencySession :=
  if s.status = EmergencyStatus.resolved ∨ s.status = EmergencyStatus.cancelled then
    Except.error ("ValueError: session is already ended")
  else
    let st :=
      if req.emergency_services_called then EmergencyStatus.escalated
      else if strContains (pyLower req.reason) ("cancel") then EmergencyStatus.cancelled
      else EmergencyStatus.resolved
    let notes :=
      match req.notes with
      | some n =>
        if n.isEmpty then s.user_notes
        else some (pyStrip ((match s.user_notes with | some u => u | none => "") ++
          "\n\nResolution: " ++ n))
      | none => s.user_notes
    Except.ok { s with status := st, ended_at := some now, updated_at := now,
                       user_notes := notes }

/-- Model of `EmergencyService.analyze_frame`: the two Gemini stages (scene analysis
then instruction generation) abstracted into one outcome `gem`.  The session
is first moved to ANALYZING; on success the analysis, instructions, ACTIVE
status and initial step are written; on a raise the `except` branch pins the
status back to ACTIVE, stamps `updated_at`, and re-raises.  The pair holds
the returned-or-raised outcome and the session as left behind. -/
def analyzeFrame (s : EmergencySession)
    (gem : Except String (EmergencyAnalysis × List FirstAidInstruction)) (now : Nat) :
    (Except String (EmergencyAnalysis × List FirstAidInstruction)) × EmergencySession :=
  let s1 := { s with status := EmergencyStatus.analyzing, updated_at := now }
  match gem with
  | Except.ok (a, instrs) =>
    (Except.ok (a, instrs),
     { s1 with analysis := some a, instructions := instrs,
               status := EmergencyStatus.active,
               current_step := if instrs.isEmpty then 0 else 1, updated_at := now })
  | Except.error e => (Except.error e, { s1 with status := EmergencyStatus.active,
                                                 updated_at := now })

/-- Errors surfaced by `EmergencyController.advance_step`. -/
inductive StepError where
  | stepMismatch (recorded : Nat)
deriving DecidableEq, Repr

/-- Model of `EmergencyController.advance_step` after the store lookup: reject when
the client's claimed step differs from the recorded one, otherwise advance
and persist (`update_session` stamps `updated_at` again). -/
def advanceStepController (s : EmergencySession) (claimed : Nat)
    (feedback : Option String) (now : Nat) :
    Except StepError ((Bool × Option FirstAidInstruction) × EmergencySession) :=
  if s.current_step ≠ claimed then Except.error (StepError.stepMismatch s.current_step)
  else
    let (res, s1) := advanceInstruction s feedback now
    Except.ok (res, { s1 with updated_at := now })

/-! ## Severity heuristic (`EmergencyService.calculate_severity_score`) -/

/-- The base-severity lookup table keyed by emergency type. -/
def baseSeverity (et : EmergencyType) : Nat :=
  match et with
  | EmergencyType.cardiac_arrest => 5
  | EmergencyType.stroke => 5
  | EmergencyType.drowning => 5
  | EmergencyType.severe_bleeding => 4
  | EmergencyType.choking => 4
  | EmergencyType.head_injury => 4
  | EmergencyType.heart_attack => 4
  | EmergencyType.poisoning => 4
  | EmergencyType.allergic_reaction => 4
  | EmergencyType.seizure => 3
  | EmergencyType.asthma_attack => 3
  | EmergencyType.diabetic_emergency => 3
  | EmergencyType.burn => 3
  | EmergencyType.unconscious => 4
  | EmergencyType.shock => 4
  | EmergencyType.fracture => 2
  | EmergencyType.unknown => 3

/-- The fixed critical-keyword list, in source order. -/
def criticalKeywords : List String :=
  ["not breathing", "no pulse", "unconscious", "unresponsive",
   "severe", "massive", "arterial", "profuse"]

/-- The keyword scan: on the first keyword found in the observation text the
severity is bumped once, capped at 5, and the loop breaks. -/
def scanKeywords (obsText : String) : List String → Nat → Nat
  | [], sev => sev
  | k :: rest, sev =>
    if strContains obsText k then min 5 (sev + 1)
    else scanKeywords obsText rest sev

/-- Python `" ".join(xs)`. -/
def joinSpace : List String → String
  | [] => ""
  | [s] => s
  | s :: rest => s ++ " " ++ joinSpace rest

/-- Model of `EmergencyService.calculate_severity_score`. -/
def calculateSeverityScore (et : EmergencyType) (obs : List String) : Nat :=
  scanKeywords (pyLower (joinSpace obs)) criticalKeywords (baseSeverity et)

/-! ## Operation sequences over a session -/

/-- One core operation applied to a live session, with its external inputs:
frame analysis (with the abstracted Gemini outcome), step advance, the pure
current-instruction read, and session end. -/
inductive SessionOp where
  | analyze (gem : Except String (EmergencyAnalysis × List FirstAidInstruction)) (now : Nat)
  | advance (feedback : Option String) (now : Nat)
  | getCurrent
  | endSess (req : EndSessionRequest) (now : Nat)

/-- The session each operation leaves behind (a failing `end_session` raises
before mutating, so it leaves the session as it was). -/
def applyOp (s : EmergencySession) (op : SessionOp) : EmergencySession :=
  match op with
  | SessionOp.analyze gem now => (analyzeFrame s gem now).2
  | SessionOp.advance fb now => (advanceInstruction s fb now).2
  | SessionOp.getCurrent => s
  | SessionOp.endSess req now =>
    match endSession s req now with
    | Except.ok s1 => s1
    | Except.error _ => s

/-- The step-pointer invariant: `0 ≤ current_step ≤ len(instructions)` (the
lower bound is intrinsic to `Nat`). -/
def stepInvariant (s : EmergencySession) : Prop :=
  s.current_step ≤ s.instructions.length

instance (s : EmergencySession) : Decidable (stepInvariant s) := by
  unfold stepInvariant; infer_instance

/-! ## The spec-side first-literal extractor, for comparison with the
normalizer's greedy span -/

/-- Following the spec's words for the Response Normalizer fallback search:
"search for the first balanced JSON object or array literal in the text" —
scan left to right and return the first position from which a complete
object or array literal parses. -/
def specFirstLiteralAux (fuel : Nat) (cs : List Char) : Option Json :=
  match fuel with
  | 0 => none
  | fuel + 1 =>
    match cs with
    | [] => none
    | c :: t =>
      if c = lbrace ∨ c = '[' then
        match readValue ((c :: t).length * 4 + 16) (c :: t) with
        | some (j, _) => some j
        | none => specFirstLiteralAux fuel t
      else specFirstLiteralAux fuel t

/-- The first balanced JSON object or array literal in a string, per the
spec's description of the normalizer. -/
def specFirstLiteral (s : String) : Option Json :=
  specFirstLiteralAux (s.data.length + 1) s.data

/-! ## Sample values used by witnesses -/

/-- A sample valid instruction. -/
def sampleInstruction : FirstAidInstruction :=
  ⟨1, "Call 911 immediately",
   "Call 911 immediately and describe the emergency.", none, true, none, none⟩

/-- An escalated (terminal) session with a recorded end instant. -/
def escalatedSession : EmergencySession :=
  ⟨EmergencyStatus.escalated, 0, 5, some 5, none, [], 0, none, none⟩

/-- An active one-instruction session sitting at its last step. -/
def lastStepSession : EmergencySession :=
  ⟨EmergencyStatus.active, 0, 1, none, none, [sampleInstruction], 1, none, none⟩

/-- An active one-instruction session not yet started. -/
def startStepSession : EmergencySession :=
  ⟨EmergencyStatus.active, 0, 1, none, none, [sampleInstruction], 0, none, none⟩

/-! ## Claim theorems -/

/-- Claim C1.  The claim says every terminal status (Resolved, Escalated or
Cancelled) makes `end_session` fail without mutating the session.  The code
checks only RESOLVED and CANCELLED: on an Escalated session whose recorded
`ended_at` is instant 5, an end request with a cancelling reason is accepted,
moves the terminal session to Cancelled and re-stamps `ended_at` to the new
instant 20. -/
theorem C1_escalated_endSession_not_rejected :
    escalatedSession.ended_at = some 5 ∧
    endSession escalatedSession ⟨"user cancelled", none, false⟩ 20 =
      Except.ok (⟨EmergencyStatus.cancelled, 0, 20, some 20, none, [], 0, none, none⟩ :
        EmergencySession) ∧
    some 5 ≠ some (20 : Nat) :=
  ⟨rfl, rfl, by simp⟩

/-- Claim C10.  When the Gemini stage of the frame-analysis workflow raises,
the session is left ACTIVE (never stuck in ANALYZING), only `updated_at` is
additionally changed — analysis, instructions, step, `ended_at`, notes and
location are exactly as before — and the exception is re-raised. -/
theorem C10_analyze_frame_error_frame :
    ∀ (s : EmergencySession) (e : String) (t : Nat),
      (analyzeFrame s (Except.error e) t).1 = Except.error e ∧
      ((analyzeFrame s (Except.error e) t).2).status = EmergencyStatus.active ∧
      ((analyzeFrame s (Except.error e) t).2).updated_at = t ∧
      ((analyzeFrame s (Except.error e) t).2).analysis = s.analysis ∧
      ((analyzeFrame s (Except.error e) t).2).instructions = s.instructions ∧
      ((analyzeFrame s (Except.error e) t).2).current_step = s.current_step ∧
      ((analyzeFrame s (Except.error e) t).2).ended_at = s.ended_at ∧
      ((analyzeFrame s (Except.error e) t).2).user_notes = s.user_notes ∧
      ((analyzeFrame s (Except.error e) t).2).location_data = s.location_data ∧
      ((analyzeFrame s (Except.error e) t).2).started_at = s.started_at :=
  fun _ _ _ => ⟨rfl, rfl, rfl, rfl, rfl, rfl, rfl, rfl, rfl, rfl⟩

/-- The keyword scan equals a single capped escalation triggered when any
keyword occurs, however many keywords match. -/
theorem scanKeywords_characterization (txt : String) :
    ∀ (ks : List String) (sev : Nat),
      scanKeywords txt ks sev =
        if ks.any (fun k => strContains txt k) then min 5 (sev + 1) else sev := by
  intro ks
  induction ks with
  | nil => intro sev; simp [scanKeywords]
  | cons k rest ih =>
    intro sev
    by_cases h : strContains txt k
    · simp [scanKeywords, h]
    · simp [scanKeywords, h, ih sev]

/-- Claim C3.  `advance_instruction` case split: an empty instruction list
is a complete no-op returning `(false, none)`; at the last step the session
is resolved with `ended_at` stamped, returning `(false, none)`; otherwise
the step is incremented by exactly 1 and the instruction at the new 1-based
position (0-based index `current_step` before the increment) is returned
with `true`. -/
theorem C3_advance_step_cases :
    ∀ (s : EmergencySession) (fb : Option String) (t : Nat),
      (s.instructions = [] → advanceInstruction s fb t = ((false, none), s)) ∧
      (s.instructions ≠ [] → s.current_step = s.instructions.length →
        advanceInstruction s fb t = ((false, none),
          { s with status := EmergencyStatus.resolved, ended_at := some t, updated_at := t })) ∧
      (s.current_step < s.instructions.length →
        advanceInstruction s fb t =
          ((true, s.instructions[s.current_step]?),
           { s with current_step := s.current_step + 1, updated_at := t })) := by
  intro s fb t
  refine ⟨?_, ?_, ?_⟩
  · intro h
    simp [advanceInstruction, h]
  · intro h1 h2
    have hne : s.instructions.isEmpty = false := by
      cases hI : s.instructions with
      | nil => exact absurd hI h1
      | cons a l => rfl
    simp [advanceInstruction, hne, h2]
  · intro h
    have hne : s.instructions.isEmpty = false := by
      cases hI : s.instructions with
      | nil => rw [hI] at h; simp at h
      | cons a l => rfl
    have hlt : ¬ s.instructions.length ≤ s.current_step := by omega
    have h1 : ¬ (s.current_step + 1 < 1 ∨ s.instructions.length < s.current_step + 1) := by
      omega
    simp only [advanceInstruction, hne, Bool.false_eq_true, if_false,
      if_neg hlt, getCurrentInstruction, if_neg h1]
    simp

/-- Witness for C3: a one-instruction session at step 0 advances to step 1
and returns that instruction. -/
theorem C3_advance_step_cases_witness :
    advanceInstruction startStepSession none 7 =
      ((true, startStepSession.instructions[startStepSession.current_step]?),
       { startStepSession with
         current_step := startStepSession.current_step + 1
         updated_at := 7 }) :=
  (C3_advance_step_cases startStepSession none 7).2.2 (by decide)

/-- Claim C9.  The severity heuristic is the fixed per-type base table,
escalated exactly once (capped at 5) when any critical keyword occurs in
the lowercased space-joined observations; with the table values the claim
lists, and the two concrete examples. -/
theorem C9_severity_heuristic :
    (∀ (et : EmergencyType) (obs : List String),
      calculateSeverityScore et obs =
        if criticalKeywords.any (fun k => strContains (pyLower (joinSpace obs)) k)
        then min 5 (baseSeverity et + 1) else baseSeverity et) ∧
    baseSeverity EmergencyType.cardiac_arrest = 5 ∧
    baseSeverity EmergencyType.stroke = 5 ∧
    baseSeverity EmergencyType.drowning = 5 ∧
    baseSeverity EmergencyType.severe_bleeding = 4 ∧
    baseSeverity EmergencyType.choking = 4 ∧
    baseSeverity EmergencyType.seizure = 3 ∧
    baseSeverity EmergencyType.asthma_attack = 3 ∧
    baseSeverity EmergencyType.fracture = 2 ∧
    baseSeverity EmergencyType.unknown = 3 ∧
    calculateSeverityScore EmergencyType.cardiac_arrest ["no pulse"] = 5 ∧
    calculateSeverityScore EmergencyType.fracture [] = 2 :=
  ⟨fun et obs => scanKeywords_characterization (pyLower (joinSpace obs)) criticalKeywords
      (baseSeverity et),
   rfl, rfl, rfl, rfl, rfl, rfl, rfl, rfl, rfl, by decide, by decide⟩

/-- Every single core operation preserves the step-pointer invariant. -/
theorem applyOp_stepInvariant (s : EmergencySession) (op : SessionOp)
    (h : stepInvariant s) : stepInvariant (applyOp s op) := by
  unfold stepInvariant at h ⊢
  cases op with
  | analyze gem now =>
    cases gem with
    | ok p =>
      obtain ⟨a, instrs⟩ := p
      cases instrs with
      | nil => simp [applyOp, analyzeFrame]
      | cons i rest => simp [applyOp, analyzeFrame]
    | error e => simpa [applyOp, analyzeFrame] using h
  | advance fb now =>
    by_cases he : s.instructions.isEmpty
    · simpa [applyOp, advanceInstruction, he] using h
    · by_cases hl : s.instructions.length ≤ s.current_step
      · simp [applyOp, advanceInstruction, he, hl]
        omega
      · simp [applyOp, advanceInstruction, he, hl, getCurrentInstruction]
        omega
  | getCurrent => simpa [applyOp] using h
  | endSess req now =>
    by_cases ht : s.status = EmergencyStatus.resolved ∨ s.status = EmergencyStatus.cancelled
    · simpa [applyOp, endSession, ht] using h
    · simpa [applyOp, endSession, ht] using h

/-- Any run of core operations from a fresh session keeps the invariant. -/
theorem foldl_stepInvariant :
    ∀ (ops : List SessionOp) (s : EmergencySession), stepInvariant s →
      stepInvariant (List.foldl applyOp s ops) := by
  intro ops
  induction ops with
  | nil => intro s h; simpa using h
  | cons op rest ih =>
    intro s h
    exact ih (applyOp s op) (applyOp_stepInvariant s op h)

/-- Claim C4.  The invariant `0 ≤ current_step ≤ len(instructions)` holds at
creation, is preserved by every core operation, hence holds after every
prefix of any operation sequence started from a fresh session; and a
successful analysis sets `current_step` to 1 exactly when it produced at
least one instruction, 0 otherwise. -/
theorem C4_step_invariant :
    (∀ (notes loc : Option String) (t : Nat), stepInvariant (createSession notes loc t)) ∧
    (∀ (s : EmergencySession) (op : SessionOp),
      stepInvariant s → stepInvariant (applyOp s op)) ∧
    (∀ (notes loc : Option String) (t : Nat) (ops : List SessionOp),
      stepInvariant (List.foldl applyOp (createSession notes loc t) ops)) ∧
    (∀ (s : EmergencySession) (a : EmergencyAnalysis)
       (instrs : List FirstAidInstruction) (now : Nat),
      ((analyzeFrame s (Except.ok (a, instrs)) now).2).current_step =
        if instrs.isEmpty then 0 else 1) :=
  ⟨fun _ _ _ => Nat.zero_le _,
   applyOp_stepInvariant,
   fun notes loc t ops => foldl_stepInvariant ops (createSession notes loc t) (Nat.zero_le _),
   fun _ _ _ _ => rfl⟩

/-- Witness for C4: the preservation clause applied to a concrete session
and a concrete advance operation. -/
theorem C4_step_invariant_witness :
    stepInvariant (applyOp startStepSession (SessionOp.advance none 3)) :=
  C4_step_invariant.2.1 startStepSession (SessionOp.advance none 3) (by decide)

/-- Shared resolution branch: on a nonempty instruction list at or past the
last step, `advance_instruction` resolves and stamps the end instant. -/
theorem advanceInstruction_resolves (s : EmergencySession) (fb : Option String) (t : Nat)
    (h1 : s.instructions ≠ []) (h2 : s.instructions.length ≤ s.current_step) :
    advanceInstruction s fb t = ((false, none),
      { s with status := EmergencyStatus.resolved, ended_at := some t, updated_at := t }) := by
  have hne : s.instructions.isEmpty = false := by
    cases hI : s.instructions with
    | nil => exact absurd hI h1
    | cons a l => rfl
  simp [advanceInstruction, hne, h2]

/-- Counterexample to claim C2.  An active one-instruction session at its
last step: the first advance-step request (claimed step 1) resolves it and
stamps `ended_at` to instant 10; but a second advance-step request with the
same claimed step is accepted — `Except.ok`, not a state-conflict error —
because the recorded step still equals the claim, and it re-enters the
resolution branch and re-stamps `ended_at` to instant 20. -/
theorem C2_repeat_advance_counterexample :
    advanceStepController lastStepSession 1 none 10 =
      Except.ok ((false, none),
        (⟨EmergencyStatus.resolved, 0, 10, some 10, none, [sampleInstruction], 1,
          none, none⟩ : EmergencySession)) ∧
    advanceStepController
      (⟨EmergencyStatus.resolved, 0, 10, some 10, none, [sampleInstruction], 1,
        none, none⟩ : EmergencySession) 1 none 20 =
      Except.ok ((false, none),
        (⟨EmergencyStatus.resolved, 0, 20, some 20, none, [sampleInstruction], 1,
          none, none⟩ : EmergencySession)) ∧
    some (10 : Nat) ≠ some (20 : Nat) :=
  ⟨rfl, rfl, by simp⟩

/-- Claim C2 (amended).  At the last step of a nonempty instruction list,
an advance-step request whose claimed step matches yields `(false, none)`
and resolves the session, stamping `ended_at`; a mismatched claimed step is
rejected as a step-conflict error; but a subsequent request with the same
(still matching) claimed step is accepted again and re-runs the resolution
branch, re-stamping `ended_at` — repetition is not detected as a
state-conflict. -/
theorem C2_advance_resolution_amended :
    ∀ (s : EmergencySession) (claimed t t2 : Nat) (fb fb2 : Option String),
      s.instructions ≠ [] → s.current_step = s.instructions.length →
      (claimed ≠ s.current_step →
        advanceStepController s claimed fb t =
          Except.error (StepError.stepMismatch s.current_step)) ∧
      (claimed = s.current_step →
        advanceStepController s claimed fb t =
          Except.ok ((false, none),
            { s with status := EmergencyStatus.resolved, ended_at := some t, updated_at := t }) ∧
        advanceStepController
          { s with status := EmergencyStatus.resolved, ended_at := some t, updated_at := t }
          claimed fb2 t2 =
          Except.ok ((false, none),
            { s with status := EmergencyStatus.resolved, ended_at := some t2, updated_at := t2 })) := by
  intro s claimed t t2 fb fb2 h1 h2
  constructor
  · intro hcl
    simp [advanceStepController, Ne.symm hcl]
  · intro hcl
    have hg : ¬ s.current_step ≠ claimed := by omega
    have hlen : s.instructions.length ≤ s.current_step := by omega
    constructor
    · simp only [advanceStepController, if_neg hg,
        advanceInstruction_resolves s fb t h1 hlen]
    · have h1b : ({ s with status := EmergencyStatus.resolved, ended_at := some t, updated_at := t } : EmergencySession).instructions ≠ [] := h1
      have hlenb : ({ s with status := EmergencyStatus.resolved, ended_at := some t, updated_at := t } : EmergencySession).instructions.length ≤ ({ s with status := EmergencyStatus.resolved, ended_at := some t, updated_at := t } : EmergencySession).current_step := hlen
      simp only [advanceStepController, if_neg hg,
        advanceInstruction_resolves _ fb2 t2 h1b hlenb]

/-- Witness for C2 (amended): the matching-claim clause at the concrete
last-step session, instants 10 then 20. -/
theorem C2_advance_resolution_amended_witness :
    advanceStepController lastStepSession 1 none 10 =
      Except.ok ((false, none),
        { lastStepSession with status := EmergencyStatus.resolved, ended_at := some 10, updated_at := 10 }) ∧
    advanceStepController
      { lastStepSession with status := EmergencyStatus.resolved, ended_at := some 10, updated_at := 10 }
      1 none 20 =
      Except.ok ((false, none),
        { lastStepSession with status := EmergencyStatus.resolved, ended_at := some 20, updated_at := 20 }) :=
  (C2_advance_resolution_amended lastStepSession 1 10 20 none none
    (by decide) (by decide)).2 (by decide)

/-- The exception-branch fallback analysis passes validation and carries the
fixed fields whenever the error description fits the context bound. -/
theorem fallbackAnalysis_ok (e : String)
    (h : ("Analysis error: " ++ e).length ≤ 1000) :
    fallbackAnalysis e = Except.ok
      ⟨EmergencyType.unknown, 3, 0,
       ["Analysis failed - please describe the situation"],
       "Call 911 immediately and describe the emergency", true,
       some ("Analysis error: " ++ e)⟩ := by
  unfold fallbackAnalysis mkEmergencyAnalysis
  rw [if_neg (by norm_num), if_neg (by decide), if_neg (by simp at h ⊢; omega)]
  rfl

/-- The fallback analysis produced for a failed external generation call. -/
def networkFailureFallback : EmergencyAnalysis :=
  ⟨EmergencyType.unknown, 3, 0,
   ["Analysis failed - please describe the situation"],
   "Call 911 immediately and describe the emergency", true,
   some ("Analysis error: network failure")⟩

/-- Counterexample to claim C5.  The claim says the fallback analysis has
severity 4; the code builds it with `SeverityLevel.HIGH`, whose numeric
value is 3 (CRITICAL is 4).  On a raised external call the returned fallback
has severity 3, not 4. -/
theorem C5_fallback_severity_counterexample :
    analyzeEmergencyFrame (Except.error ("network failure")) =
      Except.ok networkFailureFallback ∧
    networkFailureFallback.severity = 3 ∧
    networkFailureFallback.severity ≠ 4 :=
  ⟨rfl, rfl, by simp [networkFailureFallback]⟩

/-- Claim C5 (amended).  Whenever the external generation call raises, or
the field mapping of a parsed payload raises, `analyze_emergency_frame`
returns — rather than propagates — the fallback analysis: type unknown,
severity 3 (`SeverityLevel.HIGH`), confidence 0, the non-empty
analysis-failed observation, a recommended action instructing to call 911,
and `call_emergency_services = true` (with the error description recorded,
which fits the 1000-character context bound the fallback itself is
validated against). -/
theorem C5_fallback_analysis_amended :
    (∀ (e : String), ("Analysis error: " ++ e).length ≤ 1000 →
      analyzeEmergencyFrame (Except.error e) = Except.ok
        ⟨EmergencyType.unknown, 3, 0,
         ["Analysis failed - please describe the situation"],
         "Call 911 immediately and describe the emergency", true,
         some ("Analysis error: " ++ e)⟩) ∧
    (∀ (t msg : String),
      mapAnalysisFields (parseAnalysisResponse t) = Except.error msg →
      ("Analysis error: " ++ msg).length ≤ 1000 →
      analyzeEmergencyFrame (Except.ok t) = Except.ok
        ⟨EmergencyType.unknown, 3, 0,
         ["Analysis failed - please describe the situation"],
         "Call 911 immediately and describe the emergency", true,
         some ("Analysis error: " ++ msg)⟩) := by
  constructor
  · intro e h
    have h0 : analyzeEmergencyFrame (Except.error e) = fallbackAnalysis e := rfl
    rw [h0, fallbackAnalysis_ok e h]
  · intro t msg hmap h
    unfold analyzeEmergencyFrame
    simp only [bind, Except.bind]
    rw [hmap]
    exact fallbackAnalysis_ok msg h

/-- Witness for C5 (amended): the raised-call clause at a concrete error. -/
theorem C5_fallback_analysis_amended_witness :
    analyzeEmergencyFrame (Except.error ("boom")) = Except.ok
      ⟨EmergencyType.unknown, 3, 0,
       ["Analysis failed - please describe the situation"],
       "Call 911 immediately and describe the emergency", true,
       some ("Analysis error: " ++ "boom")⟩ :=
  C5_fallback_analysis_amended.1 ("boom") (by decide)

/-- A payload carrying only a severity maps to the severity coercion bound
into the all-defaults analysis constructor. -/
theorem mapAnalysisFields_severity_only (j : Json) :
    mapAnalysisFields (Json.obj [("severity", j)]) =
      (severityLevelOfJson j).bind (fun sev =>
        mkEmergencyAnalysis EmergencyType.unknown sev oneHalf []
          ("Assess the situation") true none) := rfl

/-- Counterexample to claim C6.  The claim says an out-of-range provided
severity is clamped into 1 to 5.  The code instead raises: on the payload
with severity 7 the field mapping errors — no analysis (in particular no
clamped-to-5 one) is produced; `analyze_emergency_frame` then falls back to
the exception default. -/
theorem C6_severity_clamping_counterexample :
    mapAnalysisFields (Json.obj [("severity", Json.num 7)]) =
      Except.error ("ValueError: severity") ∧
    (Except.error ("ValueError: severity") : Except String EmergencyAnalysis) ≠
      Except.ok (⟨EmergencyType.unknown, 5, oneHalf, [], "Assess the situation",
        true, none⟩ : EmergencyAnalysis) :=
  ⟨rfl, by simp⟩

/-- Claim C6 (amended).  The field mapping applies the documented defaults —
missing emergency type maps to unknown, missing severity defaults to 3,
missing confidence to 0.5, missing observations to the empty sequence,
missing recommended action to "Assess the situation", missing
call-emergency-services to true — and a provided severity inside the enum
range 1 to 5 is taken as is; but an out-of-range severity is not clamped:
the mapping raises a value error instead. -/
theorem C6_mapping_defaults_amended :
    (mapAnalysisFields (Json.obj []) = Except.ok
      ⟨EmergencyType.unknown, 3, oneHalf, [], "Assess the situation", true, none⟩) ∧
    (∀ (n : Nat), 1 ≤ n → n ≤ 5 →
      mapAnalysisFields (Json.obj [("severity", Json.num (n : ℚ))]) = Except.ok
        ⟨EmergencyType.unknown, n, oneHalf, [], "Assess the situation", true, none⟩) ∧
    (∀ (q : ℚ), ¬(q = 1 ∨ q = 2 ∨ q = 3 ∨ q = 4 ∨ q = 5) →
      mapAnalysisFields (Json.obj [("severity", Json.num q)]) =
        Except.error ("ValueError: severity")) := by
  refine ⟨rfl, ?_, ?_⟩
  · intro n h1 h2
    interval_cases n <;> rfl
  · intro q h
    rw [mapAnalysisFields_severity_only]
    simp only [severityLevelOfJson, if_neg h]
    rfl

/-- Witness for C6 (amended): an in-range provided severity 4 is kept. -/
theorem C6_mapping_defaults_amended_witness :
    mapAnalysisFields (Json.obj [("severity", Json.num ((4 : Nat) : ℚ))]) = Except.ok
      ⟨EmergencyType.unknown, 4, oneHalf, [], "Assess the situation", true, none⟩ :=
  C6_mapping_defaults_amended.2.1 4 (by decide) (by decide)

/-- Counterexample to claim C7.  The claim says an empty or unparseable
response also yields the non-empty built-in instruction set.  The code only
substitutes the defaults when the call (or instruction validation) raises:
a successfully returned but unparseable response parses to the empty
element list, the building loop runs zero times, and the empty instruction
list — not the non-empty built-in set — is returned. -/
theorem C7_unparseable_counterexample :
    generateFirstAidInstructions (Except.ok ("no json here")) EmergencyType.fracture = [] ∧
    defaultInstructionsFor EmergencyType.fracture ≠ [] :=
  ⟨rfl, by simp [defaultInstructionsFor, genericDefaultInstructions]⟩

/-- Claim C7 (amended).  When instruction generation raises, the result is
the fixed built-in set — the curated defaults for cardiac arrest or choking,
the generic two-step set (call 911; keep the person calm and still) for
every other type — and that set is never empty; but a returned response that
is empty or unparseable yields the empty instruction list, not the built-in
set. -/
theorem C7_default_instructions_amended :
    (∀ (e : String) (et : EmergencyType),
      generateFirstAidInstructions (Except.error e) et = defaultInstructionsFor et) ∧
    (∀ (et : EmergencyType), defaultInstructionsFor et ≠ []) ∧
    (∀ (t : String) (et : EmergencyType), parseInstructionsResponse t = [] →
      generateFirstAidInstructions (Except.ok t) et = []) ∧
    (∀ (et : EmergencyType), et ≠ EmergencyType.cardiac_arrest →
      et ≠ EmergencyType.choking →
      defaultInstructionsFor et = genericDefaultInstructions) := by
  refine ⟨fun e et => rfl, ?_, ?_, ?_⟩
  · intro et
    cases et <;> simp [defaultInstructionsFor, genericDefaultInstructions]
  · intro t et h
    unfold generateFirstAidInstructions
    simp only [bind, Except.bind]
    rw [h]
    rfl
  · intro et
    cases et <;> intro h1 h2 <;>
      first
      | rfl
      | exact absurd rfl h1
      | exact absurd rfl h2

/-- Witness for C7 (amended): a parseable-to-nothing response yields the
empty list. -/
theorem C7_default_instructions_amended_witness :
    generateFirstAidInstructions (Except.ok ("still nothing structured"))
      EmergencyType.burn = [] :=
  C7_default_instructions_amended.2.2.1 ("still nothing structured")
    EmergencyType.burn rfl

/-- Counterexample to claim C8.  The claim says that without a fenced block
the normalizer returns the first object/array literal found in the text.
The raw-object regex is greedy: on text holding two object literals with
prose between, the matched span runs from the first opening brace to the
last closing brace, is malformed as a whole, and the caught decode failure
yields the empty result — not the first literal, which the spec-side
first-balanced-literal search does find. -/
theorem C8_greedy_span_counterexample :
    parseAnalysisResponse ("\x7b\"a\":1\x7d x \x7b\"b\":2\x7d") = Json.obj [] ∧
    specFirstLiteral ("\x7b\"a\":1\x7d x \x7b\"b\":2\x7d") =
      some (Json.obj [("a", Json.num 1)]) ∧
    Json.obj [] ≠ Json.obj [("a", Json.num 1)] :=
  ⟨rfl, rfl, by simp⟩

/-- Claim C8 (amended).  The analysis normalizer never raises: it returns
the parsed content of a fenced ```json block when one is present (so the
claim's fenced example yields the parsed object); otherwise it parses the
span from the first opening brace to the last closing brace, so text whose
braces do not delimit one well-formed object — including two separate
literals with prose between — yields the empty result rather than the first
literal; with no fence and no such span, and on every caught decode
failure, the result is the empty object. -/
theorem C8_normalizer_amended :
    (parseAnalysisResponse ("here you go ```json \x7b\"a\":1\x7d ``` thanks") =
      Json.obj [("a", Json.num 1)]) ∧
    (parseAnalysisResponse ("just words, no structure here") = Json.obj []) ∧
    (∀ (t : String) (inner : List Char), fencedBlock t.data = some inner →
      parseAnalysisResponse t = (pyJsonLoads ⟨inner⟩).getD (Json.obj [])) ∧
    (∀ (t : String) (span : List Char), fencedBlock t.data = none →
      rawSpan lbrace rbrace t.data = some span →
      parseAnalysisResponse t = (pyJsonLoads ⟨span⟩).getD (Json.obj [])) ∧
    (∀ (t : String), fencedBlock t.data = none → rawSpan lbrace rbrace t.data = none →
      parseAnalysisResponse t = Json.obj []) := by
  refine ⟨rfl, rfl, ?_, ?_, ?_⟩
  · intro t inner h
    unfold parseAnalysisResponse parseAnalysisResponseE
    rw [h]
    cases hp : pyJsonLoads ⟨inner⟩ <;> simp [hp]
  · intro t span h1 h2
    unfold parseAnalysisResponse parseAnalysisResponseE
    rw [h1, h2]
    cases hp : pyJsonLoads ⟨span⟩ <;> simp [hp]
  · intro t h1 h2
    unfold parseAnalysisResponse parseAnalysisResponseE
    rw [h1, h2]

/-- Witness for C8 (amended): the no-JSON clause at concrete prose. -/
theorem C8_normalizer_amended_witness :
    parseAnalysisResponse ("nothing of interest") = Json.obj [] :=
  C8_normalizer_amended.2.2.2.2 ("nothing of interest") rfl rfl
